import Mathlib

/-!
Verification of the job-orchestration and candidate/version lifecycle core of
the `operator` repository (`dspy-server.py`, `llm/optim_gepa.py`,
`llm/utils.py`), against its natural-language specification.

The Python source is shallowly embedded: each relevant Python function is
translated into a pure Lean function over explicit state (the relevant slice
of the filesystem), with exceptions modelled as `Option`/error results and
machine-level details (timestamps, hashes) modelled faithfully where a claim
depends on them.
-/

namespace Operator

/-! ## Generic helpers: Python string and dict primitives -/

/-- Python `needle in hay` substring containment on strings. -/
def strContains (hay needle : String) : Bool :=
  (List.range (hay.toList.length + 1)).any
    (fun i => List.isPrefixOf needle.toList (hay.toList.drop i))

/-- Python `s.lower()` (ASCII case folding suffices for the strings the
server compares: summaries and status words). -/
def strLower (s : String) : String :=
  String.mk (s.toList.map Char.toLower)

/-- Python `s.startswith(pre)` / glob prefix matching. -/
def strStartsWith (s pre : String) : Bool :=
  List.isPrefixOf pre.toList s.toList

/-- Python `s.endswith(suf)` / glob suffix matching. -/
def strEndsWith (s suf : String) : Bool :=
  List.isSuffixOf suf.toList s.toList

/-- Python `s[:n]`. -/
def strTake (s : String) (n : Nat) : String :=
  String.mk (s.toList.take n)

/-- Is the string empty? -/
def strIsEmpty (s : String) : Bool :=
  s.toList.isEmpty

/-- Lexicographic comparison of character lists by codepoint — Python's
string `<=`, which `sorted`/`list.sort` use. -/
def charListLe : List Char → List Char → Bool
  | [], _ => true
  | _ :: _, [] => false
  | x :: xs, y :: ys =>
    if x.toNat < y.toNat then true
    else if y.toNat < x.toNat then false
    else charListLe xs ys

/-- Python string `a <= b`. -/
def strLe (a b : String) : Bool := charListLe a.toList b.toList

/-- A JSON-like value, the contents of the JSON documents the repository
reads and writes (`json.load`/`json.dump`). Arrays and objects are
cons-encoded inside the single inductive (`jarrNil`/`jarrCons`,
`jobjNil`/`jobjCons`) — isomorphic to lists of values / key-value pairs —
so that equality is derivable. Numbers are modelled as integers: every
numeric field the verified claims depend on (timestamps, progress, counts)
is compared, never divided, so integer-valued models are exact. -/
inductive JVal where
  | jstr  : String → JVal
  | jnum  : Int → JVal
  | jbool : Bool → JVal
  | jnull : JVal
  | jarrNil : JVal
  | jarrCons : JVal → JVal → JVal
  | jobjNil : JVal
  | jobjCons : String → JVal → JVal → JVal
deriving DecidableEq, Repr

/-- Build a `jarr*` value from a list. -/
def JVal.arr : List JVal → JVal
  | [] => .jarrNil
  | v :: vs => .jarrCons v (JVal.arr vs)

/-- Build a `jobj*` value from a list of fields. -/
def JVal.obj : List (String × JVal) → JVal
  | [] => .jobjNil
  | (k, v) :: kvs => .jobjCons k v (JVal.obj kvs)

/-- Lookup in a JSON object value: `d[k]` as an Option (`none` = KeyError,
or the value is not an object at all). First binding wins; the repository
only builds dicts with unique keys. -/
def JVal.get? : JVal → String → Option JVal
  | .jobjCons k v t, key => if k == key then some v else t.get? key
  | _, _ => none

/-- Python `d.get(k, default)` on an object value. -/
def JVal.getD (d : JVal) (k : String) (v : JVal) : JVal :=
  (d.get? k).getD v

/-- Does the object value have the key? -/
def JVal.hasKey : JVal → String → Bool
  | .jobjCons k _ t, key => k == key || t.hasKey key
  | _, _ => false

/-- Python `d[k] = v` on an object value: overwrite in place if the key
exists, else append (insertion order preserved, as for Python dicts). -/
def JVal.set : JVal → String → JVal → JVal
  | .jobjCons k v t, key, newV =>
    if k == key then .jobjCons k newV t else .jobjCons k v (t.set key newV)
  | .jobjNil, key, newV => .jobjCons key newV .jobjNil
  | d, _, _ => d

mutual

/-- Python `str()` rendering of a parsed-JSON value, used by
`_is_candidate_referenced` (`candidate_id in str(entry)`): strings render
with single quotes, booleans as `True`/`False`, `None` for null, dicts as
`\x7b'k': v, ...\x7d` and lists as `[v, ...]`. -/
def JVal.render : JVal → String
  | .jstr s => "'" ++ s ++ "'"
  | .jnum n => toString n
  | .jbool b => cond b "True" "False"
  | .jnull => "None"
  | .jarrNil => "[]"
  | .jarrCons h t => "[" ++ h.render ++ JVal.renderArrTail t ++ "]"
  | .jobjNil => "\x7b\x7d"
  | .jobjCons k v t => "\x7b'" ++ k ++ "': " ++ v.render ++ JVal.renderObjTail t ++ "\x7d"

/-- Rendering of the remaining elements of an array value. -/
def JVal.renderArrTail : JVal → String
  | .jarrCons h t => ", " ++ h.render ++ JVal.renderArrTail t
  | _ => ""

/-- Rendering of the remaining fields of an object value. -/
def JVal.renderObjTail : JVal → String
  | .jobjCons k v t => ", '" ++ k ++ "': " ++ v.render ++ JVal.renderObjTail t
  | _ => ""

end

/-! ## Job record model (`dspy-server.py`)

A job record is one JSON file under `data/jobs/<job_id>.json`. The enqueue
endpoint (`overnight_optimize_endpoint`, lines 2482-2498) creates it with
keys `job_id`, `status`, `started_at`, `tasks`, `iterations`, `with_human`,
`asr_options`; `update_job_status` (lines 130-154) adds/overwrites `status`,
`progress`, `current_phase`, `summary`, `estimated_completion`,
`last_updated` and, on DONE/ERROR, `completed_at`; the finalization block of
`process_overnight_job` (lines 350-358) adds `results` and overwrites
`summary`. Fields that are absent until first written are `Option`s. -/

structure Job where
  job_id : String
  status : String
  started_at : String
  tasks : List String
  progress : Option Int := none
  current_phase : Option String := none
  summary : Option String := none
  estimated_completion : Option String := none
  last_updated : Option String := none
  completed_at : Option String := none
  /-- The `results` payload written by finalization; its structure is
  irrelevant to every claim, so it is carried opaquely. -/
  results : Option Unit := none
deriving DecidableEq, Repr

/-- The observable state of a job's record file: missing, unparseable
(`json.load` raises), or a parsed record. -/
inductive JobFile where
  | missing : JobFile
  | corrupt : JobFile
  | ok : Job → JobFile
deriving DecidableEq, Repr

/-- The job record created by `overnight_optimize_endpoint` (lines
2482-2490): status QUEUED and no progress/phase/summary keys yet. -/
def mkQueuedJob (job_id started_at : String) (tasks : List String) : Job :=
  { job_id := job_id, status := "QUEUED", started_at := started_at, tasks := tasks }

/-- `update_job_status(job_id, status, progress, current_phase, summary,
estimated_completion)` (dspy-server.py lines 130-154). If the job file does
not exist, nothing is written (the `if job_file.exists()` guard); if it
fails to parse, the exception is caught and nothing is written. Otherwise
all five fields are overwritten unconditionally — there is no
terminal-state guard — `last_updated` is stamped, and `completed_at` is
stamped when the new status is DONE or ERROR. -/
def update_job_status (f : JobFile) (status : String) (progress : Int)
    (current_phase summary estimated_completion now : String) : JobFile :=
  match f with
  | .missing => .missing
  | .corrupt => .corrupt
  | .ok j => .ok { j with
      status := status
      progress := some progress
      current_phase := some current_phase
      summary := some summary
      estimated_completion := some estimated_completion
      last_updated := some now
      completed_at :=
        if status = "DONE" ∨ status = "ERROR" then some now else j.completed_at }

/-- `is_job_cancelled(job_id)` (dspy-server.py lines 156-170): `True` when
the record file is missing ("Job not found, consider it cancelled") or
unreadable ("Error checking, assume cancelled for safety"); otherwise
`True` iff status is ERROR and the summary contains "cancel"
(case-insensitively). -/
def is_job_cancelled : JobFile → Bool
  | .missing => true
  | .corrupt => true
  | .ok j => j.status == "ERROR" && strContains (strLower (j.summary.getD "")) "cancel"

/-- The write performed by `cancel_job_endpoint` (dspy-server.py lines
2678-2711) on the job file: only a QUEUED or RUNNING job is cancelled, via
`update_job_status(job_id, 'ERROR', 0, 'Job cancelled by user', 'Job was
cancelled before completion')`; a terminal (or unknown-status) job is left
unchanged and the request is rejected. A missing file raises not-found and
a corrupt file raises in `json.load`; neither writes anything. -/
def cancel_request (f : JobFile) (now : String) : JobFile :=
  match f with
  | .missing => .missing
  | .corrupt => .corrupt
  | .ok j =>
    if j.status = "QUEUED" ∨ j.status = "RUNNING" then
      update_job_status f "ERROR" 0 "Job cancelled by user"
        "Job was cancelled before completion" "" now
    else
      f

/-- Whether `cancel_job_endpoint` reports success (`data.cancelled`) for a
given job file state. -/
def cancel_accepted : JobFile → Bool
  | .missing => false
  | .corrupt => false
  | .ok j => j.status == "QUEUED" || j.status == "RUNNING"

/-! ### The worker's actions on the job file

`process_overnight_job` (dspy-server.py lines 172-367) touches the job
file through three kinds of operation, in program order:
`update_job_status` calls, `is_job_cancelled` polls (returning early,
without any further write, when true), and the direct finalization
read-modify-write (lines 350-358) that stores `results` and the done
summary while leaving `status`/`progress` untouched. The phase work between
these operations reads and writes only ASR/candidate files, never the job
file, so the job-file trace of one worker run is exactly this action
list. -/

inductive WAction where
  | update : String → Int → String → String → WAction
  | check : WAction
  | finalize : String → WAction
deriving DecidableEq, Repr

/-- Worker state: the job file plus a flag recording that the worker has
returned (after an observed cancellation, or after an unhandled
finalization failure); once set, the worker performs no further action on
this job. -/
abbrev WState := JobFile × Bool

/-- One worker action. `finalize` on a missing file skips the guarded
read-modify-write, after which line 360 references the unbound local
`job` and the resulting NameError is caught by the outer handler, whose
`update_job_status` call is a no-op on a missing file; on a corrupt file
`json.load` raises with the same net effect. Both end the worker run. -/
def stepW (now : String) (st : WState) (a : WAction) : WState :=
  match st with
  | (f, true) => (f, true)
  | (f, false) =>
    match a with
    | .check => if is_job_cancelled f then (f, true) else (f, false)
    | .update status progress phase summary =>
        (update_job_status f status progress phase summary "" now, false)
    | .finalize doneSummary =>
        match f with
        | .ok j => (.ok { j with results := some (), summary := some doneSummary }, false)
        | f => (f, true)

/-- Run a list of worker actions. -/
def runSteps (now : String) (l : List WAction) (st : WState) : WState :=
  l.foldl (stepW now) st

/-- The done summary written by finalization (line 355):
`f"Processed {len(tasks)} GEPA tasks, {g} ASR glossary terms, {r} ASR rules"`. -/
def doneSummary (tasks : List String) (glossaryCount ruleCount : Nat) : String :=
  "Processed " ++ toString tasks.length ++ " GEPA tasks, " ++
    toString glossaryCount ++ " ASR glossary terms, " ++
    toString ruleCount ++ " ASR rules"

/-- The job-file action trace of `process_overnight_job` on its success
path (lines 180-361), in program order. Per-task progress
`25 + int(i * (65 / len(tasks)))` is modelled by exact integer division
(the float computation truncates the same quotient). `glossaryCount` and
`ruleCount` are the phase-1 outputs, which only feed the done summary. -/
def workerScript (tasks : List String) (glossaryCount ruleCount : Nat) : List WAction :=
  [ .update "RUNNING" 0 "Initializing overnight optimization" "",
    .check,
    .update "RUNNING" 10 "Processing ASR corrections from daily usage" "",
    .check,
    .update "RUNNING" 20 "ASR corrections processed" "",
    .check,
    .update "RUNNING" 25 ("Starting GEPA optimization for " ++ toString tasks.length ++ " tasks") "" ]
  ++ (List.range tasks.length).flatMap (fun i =>
      [ .check,
        .update "RUNNING" (25 + (Int.ofNat (i * 65) / Int.ofNat tasks.length))
          ("Optimizing " ++ (tasks.getD i "") ++ " agent (" ++ toString (i + 1) ++ "/" ++
            toString tasks.length ++ ")") "" ])
  ++ [ .update "RUNNING" 90 "GEPA optimization completed" "",
       .check,
       .finalize (doneSummary tasks glossaryCount ruleCount),
       .update "DONE" 100 "Overnight optimization completed"
         (doneSummary tasks glossaryCount ruleCount) ]

/-- Run the worker script with an external cancel request landing after the
worker's first `k` actions: the interleaving in which
`cancel_job_endpoint`'s write happens between worker action `k` and worker
action `k+1`. -/
def runWithCancelAt (now : String) (steps : List WAction) (k : Nat) (f : JobFile) : WState :=
  let st := runSteps now (steps.take k) (f, false)
  runSteps now (steps.drop k) (cancel_request st.1 now, st.2)

/-- The `except` handler of `process_overnight_job` (dspy-server.py lines
363-367): any unhandled failure during a phase runs
`update_job_status(job_id, 'ERROR', 0, 'Job failed', error_msg)` with the
exception message embedded in `error_msg`. -/
def handle_job_failure (f : JobFile) (error_msg now : String) : JobFile :=
  update_job_status f "ERROR" 0 "Job failed" error_msg "" now

/-- The status recorded in a job file, when the file holds a record. -/
def JobFile.statusOf : JobFile → Option String
  | .ok j => some j.status
  | _ => none

/-- The progress recorded in a job file, when present. -/
def JobFile.progressOf : JobFile → Option Int
  | .ok j => j.progress
  | _ => none

/-- The summary recorded in a job file, when present. -/
def JobFile.summaryOf : JobFile → Option String
  | .ok j => j.summary
  | _ => none

/-! ## MD5 (`hashlib.md5`, used by `_generate_candidate_id`)

`_generate_candidate_id` (optim_gepa.py lines 1063-1066) hashes
`f"{agent_type}:{original_prompt}:{optimized_prompt}".encode()` with MD5 and
keeps the first 16 hex digits. The full MD5 algorithm (RFC 1321) over UTF-8
bytes is implemented here on `Nat` with explicit `% 2^32` arithmetic. -/

/-- Truncation to a 32-bit word. -/
def w32 (x : Nat) : Nat := x % 4294967296

/-- 32-bit bitwise complement. -/
def wnot (x : Nat) : Nat := 4294967295 - w32 x

/-- 32-bit left rotation. The shifted-out high bits and the wrapped-in low
bits occupy disjoint bit positions, so the sum is their bitwise or. -/
def rotl (x c : Nat) : Nat := w32 (w32 x <<< c) + (w32 x >>> (32 - c))

/-- The 64 MD5 sine-derived constants `floor(2^32 * |sin(i+1)|)`. -/
def md5K : List Nat :=
  [3614090360, 3905402710, 606105819, 3250441966, 4118548399, 1200080426,
   2821735955, 4249261313, 1770035416, 2336552879, 4294925233, 2304563134,
   1804603682, 4254626195, 2792965006, 1236535329, 4129170786, 3225465664,
   643717713, 3921069994, 3593408605, 38016083, 3634488961, 3889429448,
   568446438, 3275163606, 4107603335, 1163531501, 2850285829, 4243563512,
   1735328473, 2368359562, 4294588738, 2272392833, 1839030562, 4259657740,
   2763975236, 1272893353, 4139469664, 3200236656, 681279174, 3936430074,
   3572445317, 76029189, 3654602809, 3873151461, 530742520, 3299628645,
   4096336452, 1126891415, 2878612391, 4237533241, 1700485571, 2399980690,
   4293915773, 2240044497, 1873313359, 4264355552, 2734768916, 1309151649,
   4149444226, 3174756917, 718787259, 3951481745]

/-- The 64 MD5 per-round left-rotation amounts. -/
def md5S : List Nat :=
  [7, 12, 17, 22, 7, 12, 17, 22, 7, 12, 17, 22, 7, 12, 17, 22,
   5, 9, 14, 20, 5, 9, 14, 20, 5, 9, 14, 20, 5, 9, 14, 20,
   4, 11, 16, 23, 4, 11, 16, 23, 4, 11, 16, 23, 4, 11, 16, 23,
   6, 10, 15, 21, 6, 10, 15, 21, 6, 10, 15, 21, 6, 10, 15, 21]

/-- The MD5 round function for round `i`. -/
def md5F (i b c d : Nat) : Nat :=
  if i < 16 then (b &&& c) ||| (wnot b &&& d)
  else if i < 32 then (d &&& b) ||| (wnot d &&& c)
  else if i < 48 then b ^^^ c ^^^ d
  else c ^^^ (b ||| wnot d)

/-- The MD5 message-word index for round `i`. -/
def md5G (i : Nat) : Nat :=
  if i < 16 then i
  else if i < 32 then (5 * i + 1) % 16
  else if i < 48 then (3 * i + 5) % 16
  else (7 * i) % 16

/-- `n` bytes of `x`, little-endian. -/
def leBytes : Nat → Nat → List Nat
  | 0, _ => []
  | n + 1, x => (x % 256) :: leBytes n (x / 256)

/-- MD5 padding: append `0x80`, zero bytes to 56 mod 64, then the original
bit length as 8 little-endian bytes. -/
def md5pad (msg : List Nat) : List Nat :=
  let len := msg.length
  let zeros := (119 - (len % 64)) % 64
  msg ++ [128] ++ List.replicate zeros 0 ++ leBytes 8 ((len * 8) % 18446744073709551616)

/-- Split into 64-byte blocks (structural recursion on a fuel bounded by
the list length, so the definition reduces definitionally). -/
def chunksGo : Nat → List Nat → List (List Nat)
  | 0, _ => []
  | _, [] => []
  | fuel + 1, l => l.take 64 :: chunksGo fuel (l.drop 64)

/-- Split into 64-byte blocks. -/
def chunks64 (l : List Nat) : List (List Nat) := chunksGo l.length l

/-- One MD5 round applied to the state `(a, b, c, d)`. -/
def md5Round (M : List Nat) (st : Nat × Nat × Nat × Nat) (i : Nat) :
    Nat × Nat × Nat × Nat :=
  let (a, b, c, d) := st
  let f := w32 (md5F i b c d + a + md5K.getD i 0 + M.getD (md5G i) 0)
  (d, w32 (b + rotl f (md5S.getD i 0)), b, c)

/-- Process one 64-byte block. -/
def md5Block (st : Nat × Nat × Nat × Nat) (block : List Nat) :
    Nat × Nat × Nat × Nat :=
  let M := (List.range 16).map (fun j =>
    ((block.drop (4 * j)).take 4).foldr (fun b acc => b + 256 * acc) 0)
  let (a, b, c, d) := (List.range 64).foldl (md5Round M) st
  (w32 (st.1 + a), w32 (st.2.1 + b), w32 (st.2.2.1 + c), w32 (st.2.2.2 + d))

/-- The 16-byte MD5 digest of a byte sequence. -/
def md5Bytes (msg : List Nat) : List Nat :=
  let st := (chunks64 (md5pad msg)).foldl md5Block
    (1732584193, 4023233417, 2562383102, 271733878)
  leBytes 4 st.1 ++ leBytes 4 st.2.1 ++ leBytes 4 st.2.2.1 ++ leBytes 4 st.2.2.2

/-- A lowercase hex digit. -/
def hexDigit (n : Nat) : Char :=
  if n < 10 then Char.ofNat (48 + n) else Char.ofNat (87 + n)

/-- UTF-8 encoding of one character (Python `str.encode()`). -/
def charUtf8 (c : Char) : List Nat :=
  let n := c.toNat
  if n < 128 then [n]
  else if n < 2048 then [192 + n / 64, 128 + n % 64]
  else if n < 65536 then [224 + n / 4096, 128 + (n / 64) % 64, 128 + n % 64]
  else [240 + n / 262144, 128 + (n / 4096) % 64, 128 + (n / 64) % 64, 128 + n % 64]

/-- UTF-8 encoding of a string. -/
def utf8Bytes (s : String) : List Nat := s.toList.flatMap charUtf8

/-- `hashlib.md5(s.encode()).hexdigest()`. -/
def md5Hexdigest (s : String) : String :=
  String.mk ((md5Bytes (utf8Bytes s)).flatMap (fun b => [hexDigit (b / 16), hexDigit (b % 16)]))

/-! ## Candidate store (`optim_gepa.py` lines 1063-1121)

Candidates live in `data/gepa/candidates/<candidate_id>.json`. -/

/-- Python truthiness of a JSON value (`if not x`). -/
def JVal.truthy : JVal → Bool
  | .jstr s => !(strIsEmpty s)
  | .jnum n => n != 0
  | .jbool b => b
  | .jnull => false
  | .jarrNil => false
  | .jarrCons _ _ => true
  | .jobjNil => false
  | .jobjCons _ _ _ => true

/-- Python `str(v)` / f-string interpolation of a parsed-JSON value: a
top-level string interpolates as itself (no quotes); containers render as
`repr` does. -/
def JVal.pystr : JVal → String
  | .jstr s => s
  | v => v.render

/-- One candidate file. `mtime` is the file's modification time
(`st_mtime`), which `_cleanup_candidates` compares — via
`datetime.fromtimestamp` — against its cutoff; all times in the model live
on one totally ordered integer scale. `data = none` models a file
`json.load` cannot parse. -/
structure CandFile where
  name : String
  mtime : Int
  data : Option JVal
deriving DecidableEq, Repr

/-- The candidates directory. -/
abbrev CandStore := List CandFile

/-- `atomic_write_json` into the candidates directory: replace the file if
the name exists, else create it. -/
def writeCandFile (fs : CandStore) (name : String) (d : JVal) (now : Int) : CandStore :=
  if fs.any (fun f => f.name == name) then
    fs.map (fun f => if f.name == name then { f with data := some d, mtime := now } else f)
  else fs ++ [{ name := name, mtime := now, data := some d }]

/-- `_generate_candidate_id(original_prompt, optimized_prompt, agent_type)`
(optim_gepa.py lines 1063-1066): the first 16 hex digits of the MD5 of
`f"{agent_type}:{original_prompt}:{optimized_prompt}"`. -/
def generate_candidate_id (original_prompt optimized_prompt agent_type : String) : String :=
  strTake (md5Hexdigest (agent_type ++ ":" ++ original_prompt ++ ":" ++ optimized_prompt)) 16

/-- `_save_candidate(candidate_data)` (optim_gepa.py lines 1068-1095):
compute the content-addressed id from the three prompt fields, stamp
`candidate_id`, `created_at` and `expires_at = now + 86400 * 7`, and
atomically write `<id>.json`. A missing prompt/agent field raises KeyError,
caught at lines 1093-1095: nothing is written and the fallback id
`candidate_data.get('candidate_id', f"temp-...")` is returned. Returns the
updated store and the returned id. -/
def save_candidate (fs : CandStore) (candidate_data : JVal) (now : Int) (nowIso : String) :
    CandStore × String :=
  match candidate_data.get? "original_prompt",
        candidate_data.get? "optimized_prompt",
        candidate_data.get? "agent_type" with
  | some o, some p, some a =>
    let candidate_id := generate_candidate_id o.pystr p.pystr a.pystr
    let d := ((candidate_data.set "candidate_id" (.jstr candidate_id)).set
        "created_at" (.jstr nowIso)).set "expires_at" (.jnum (now + 604800))
    (writeCandFile fs (candidate_id ++ ".json") d now, candidate_id)
  | _, _, _ =>
    (fs, match candidate_data.get? "candidate_id" with
         | some v => v.pystr
         | none => "temp-" ++ toString now)

/-- `_load_candidate(candidate_id)` (optim_gepa.py lines 1097-1121):
not-found when the file is missing; an unparseable file raises, the
exception is caught (lines 1119-1121) and `None` is returned with the file
left in place; otherwise read `expires_at` (default 0) and, when
`now > expires_at`, unlink the file and return `None`; else return the
data. A non-numeric `expires_at` makes the comparison raise, which the
same except turns into `None` without deleting. -/
def load_candidate (fs : CandStore) (candidate_id : String) (now : Int) :
    Option JVal × CandStore :=
  match fs.find? (fun f => f.name == candidate_id ++ ".json") with
  | none => (none, fs)
  | some f =>
    match f.data with
    | none => (none, fs)
    | some d =>
      match d.getD "expires_at" (.jnum 0) with
      | .jnum e =>
        if now > e then
          (none, fs.filter (fun g => !(g.name == candidate_id ++ ".json")))
        else (some d, fs)
      | _ => (none, fs)

/-- The candidate dict built by `run_optimization_preview` (optim_gepa.py
lines 1236-1251) and passed to `_save_candidate`: metric dicts are stored
under `baseline_metrics` / `candidate_metrics` (there are no
`metrics_before` / `metrics_after` keys). -/
def previewCandidateData (agent_type original_prompt optimized_prompt : String)
    (baseline_metrics candidate_metrics : JVal) (improvement : Int)
    (human_feedback_used : Bool) (baseline_results candidate_results : JVal) : JVal :=
  JVal.obj
    [("agent_type", .jstr agent_type),
     ("original_prompt", .jstr original_prompt),
     ("optimized_prompt", .jstr optimized_prompt),
     ("baseline_metrics", baseline_metrics),
     ("candidate_metrics", candidate_metrics),
     ("improvement", .jnum improvement),
     ("human_feedback_used", .jbool human_feedback_used),
     ("preview_mode", .jbool true),
     ("final_accuracy", candidate_metrics.getD "avg_accuracy" (.jnum 0)),
     ("final_completeness", candidate_metrics.getD "avg_completeness" (.jnum 0)),
     ("final_clinical", candidate_metrics.getD "avg_clinical" (.jnum 0)),
     ("final_score", candidate_metrics.getD "avg_score" (.jnum 0)),
     ("baseline_results", baseline_results),
     ("candidate_results", candidate_results)]

/-! ## Prompt version manager (`optim_gepa.py` lines 34-120)

Each agent has a directory `llm/prompts/<agent>/` holding version files
`v{iteration:03d}_{date}.json` plus `current.md`, whose `Version:` line is
the pointer `load_prompt_version` parses back; the rest of `current.md` is
presentation only, so the pointer file is modelled by the version number it
encodes. -/

/-- The contents of one version file as written by `save_prompt_version`
(lines 48-54). -/
structure VersionData where
  timestamp : String
  iteration : Int
  prompt : String
  metrics : JVal
  metadata : JVal
deriving DecidableEq, Repr

/-- One file in an agent's prompt directory (`data = none`: unparseable). -/
structure VersionFile where
  name : String
  data : Option VersionData
deriving DecidableEq, Repr

/-- An agent's prompt directory. -/
structure AgentDir where
  files : List VersionFile
  currentVersion : Option Int
deriving DecidableEq, Repr

/-- Python `f"{n:03d}"`. -/
def pad3 (n : Int) : String :=
  let s := toString n.natAbs
  let sign := if n < 0 then "-" else ""
  sign ++ (if 3 ≤ s.length + sign.length then s
           else String.mk (List.replicate (3 - s.length - sign.length) '0') ++ s)

/-- `atomic_write_json` of a version file into the agent directory. -/
def writeVersionFile (files : List VersionFile) (name : String) (vd : VersionData) :
    List VersionFile :=
  if files.any (fun f => f.name == name) then
    files.map (fun f => if f.name == name then { f with data := some vd } else f)
  else files ++ [{ name := name, data := some vd }]

/-- `save_prompt_version(agent_type, prompt, metrics, iteration, metadata)`
(optim_gepa.py lines 41-70): write the version file
`v{iteration:03d}_{timestamp[:10]}.json` and repoint `current.md` at this
iteration. Returns the updated directory and the version file name. -/
def save_prompt_version (dir : AgentDir) (prompt : String) (metrics : JVal)
    (iteration : Int) (metadata : JVal) (nowIso : String) : AgentDir × String :=
  let version_file := "v" ++ pad3 iteration ++ "_" ++ (strTake nowIso 10) ++ ".json"
  let vd : VersionData :=
    { timestamp := nowIso, iteration := iteration, prompt := prompt,
      metrics := metrics, metadata := metadata }
  ({ files := writeVersionFile dir.files version_file vd,
     currentVersion := some iteration }, version_file)

/-- `load_prompt_version(agent_type, version)` (optim_gepa.py lines
72-98): `None` resolves the version through `current.md`; then the first
file matching `v{version:03d}_*.json` is read. A matching but unparseable
file raises in `json.load` (no try/except here — callers catch); that case
also yields `none` here, with the caller's error message modelled
accordingly. -/
def load_prompt_version (dir : AgentDir) (version : Option Int) : Option VersionData :=
  match (match version with | some v => some v | none => dir.currentVersion) with
  | none => none
  | some v =>
    match dir.files.filter (fun f =>
        strStartsWith f.name ("v" ++ pad3 v ++ "_") && strEndsWith f.name ".json") with
    | [] => none
    | f :: _ => f.data

/-- A row of `list_versions` output (optim_gepa.py lines 111-116). -/
structure VersionSummary where
  iteration : Int
  timestamp : String
  score : JVal
  file : String
deriving DecidableEq, Repr

/-- Is the value a JSON object? (`.get` on anything else raises.) -/
def JVal.isObj : JVal → Bool
  | .jobjNil => true
  | .jobjCons _ _ _ => true
  | _ => false

/-- `list_versions(agent_type)` (optim_gepa.py lines 100-120): all
`v*.json` files in name order (`sorted(glob)`), skipping any file that
fails to read (including one whose `metrics` is not a dict, since
`.get('avg_score', 0)` raises on it). -/
def list_versions (dir : AgentDir) : List VersionSummary :=
  ((dir.files.filter (fun f => strStartsWith f.name "v" && strEndsWith f.name ".json")).insertionSort
      (fun a b => strLe a.name b.name = true)).filterMap
    (fun f => f.data.bind (fun d =>
      if d.metrics.isObj then
        some { iteration := d.iteration, timestamp := d.timestamp,
               score := d.metrics.getD "avg_score" (.jnum 0), file := f.name }
      else none))

/-- Result of `apply_candidate` / `rollback_to_version`: the success dict
or the `{'error': ...}` dict's message. -/
inductive OpResult where
  | applied : JVal → OpResult
  | error : String → OpResult
deriving DecidableEq, Repr

/-- Whether an operation result is the error dict. -/
def OpResult.isError : OpResult → Bool
  | .error _ => true
  | .applied _ => false

/-- `calculate_delta(before, after)` inside `_calculate_enhanced_metrics`
(optim_gepa.py lines 738-761). Python's float division for
`percent_change` is modelled by exact integer division; no claim depends
on these values. -/
def calculate_delta (before after : Int) : JVal :=
  let delta := after - before
  let percent_change : Int := if before > 0 then delta * 100 / before else 0
  let abs_percent := percent_change.natAbs
  let significance : String :=
    if abs_percent ≥ 10 then "major"
    else if abs_percent ≥ 5 then "moderate"
    else if abs_percent ≥ 1 then "minor"
    else "negligible"
  JVal.obj
    [("before", .jnum before), ("after", .jnum after), ("delta", .jnum delta),
     ("percent_change", .jnum percent_change),
     ("is_improvement", .jbool (delta > 0)),
     ("significance", .jstr significance)]

/-- `d.get(k, 0)` as an integer (the repository stores numbers there;
arithmetic on a non-number would raise, a path no claim exercises). -/
def JVal.getNumD (d : JVal) (k : String) : Int :=
  match d.getD k (.jnum 0) with
  | .jnum n => n
  | _ => 0

/-- `_calculate_enhanced_metrics(metrics_before, metrics_after)`
(optim_gepa.py lines 727-817, summary fields included). -/
def calculate_enhanced_metrics (metrics_before metrics_after : JVal) : JVal :=
  let accuracy_delta := calculate_delta (metrics_before.getNumD "avg_accuracy")
    (metrics_after.getNumD "avg_accuracy")
  let completeness_delta := calculate_delta (metrics_before.getNumD "avg_completeness")
    (metrics_after.getNumD "avg_completeness")
  let clinical_delta := calculate_delta (metrics_before.getNumD "avg_clinical")
    (metrics_after.getNumD "avg_clinical")
  let overall_delta := calculate_delta (metrics_before.getNumD "avg_score")
    (metrics_after.getNumD "avg_score")
  let deltas := [accuracy_delta, completeness_delta, clinical_delta, overall_delta]
  let improved := (deltas.filter (fun d => (d.getD "is_improvement" (.jbool false)).truthy)).length
  let unchanged := (deltas.filter (fun d => d.getD "significance" .jnull == .jstr "negligible")).length
  let degraded := (deltas.filter (fun d =>
    !(d.getD "is_improvement" (.jbool false)).truthy &&
      d.getD "significance" .jnull != .jstr "negligible")).length
  let confidence : String :=
    if improved ≥ 3 ∧ degraded = 0 then "high"
    else if improved ≥ 2 ∧ overall_delta.getNumD "delta" > 0 then "medium"
    else "low"
  JVal.obj
    [("accuracy", accuracy_delta), ("completeness", completeness_delta),
     ("clinical_appropriateness", clinical_delta), ("overall_score", overall_delta),
     ("summary", JVal.obj
       [("total_improvement", .jnum (overall_delta.getNumD "delta")),
        ("improved_metrics", .jnum improved),
        ("unchanged_metrics", .jnum unchanged),
        ("degraded_metrics", .jnum degraded),
        ("confidence_level", .jstr confidence)])]

/-- The four-field metric view used in `apply_candidate`'s return dict
(optim_gepa.py lines 1328-1339). -/
def metricsView (m : JVal) : JVal :=
  JVal.obj
    [("accuracy", m.getD "avg_accuracy" (.jnum 0)),
     ("completeness", m.getD "avg_completeness" (.jnum 0)),
     ("clinical_appropriateness", m.getD "avg_clinical" (.jnum 0)),
     ("overall_score", m.getD "avg_score" (.jnum 0))]

/-- `apply_candidate(candidate_id)` (optim_gepa.py lines 1272-1352) for one
agent: load the persisted candidate (not-found/expired yields the error
dict); read `optimized_prompt`, `metrics_before`, `metrics_after`,
`improvement` by subscription in source order — a missing key raises
KeyError, caught at lines 1345-1352 into the
`Failed to apply candidate: '<key>'` error with nothing written; an empty
prompt yields the invalid-prompt error; `metrics_before['avg_score']`
(line 1314) is also a subscription; otherwise `save_prompt_version` is
called with iteration `1` and the success dict is returned. -/
def apply_candidate (candFs : CandStore) (dir : AgentDir) (candidate_id : String)
    (now : Int) (nowIso : String) : OpResult × CandStore × AgentDir :=
  match load_candidate candFs candidate_id now with
  | (none, candFs2) =>
    (.error ("Candidate " ++ candidate_id ++ " not found or expired"), candFs2, dir)
  | (some d, candFs2) =>
    if !d.truthy then
      (.error ("Candidate " ++ candidate_id ++ " not found or expired"), candFs2, dir)
    else
      match d.get? "optimized_prompt" with
      | none => (.error "Failed to apply candidate: 'optimized_prompt'", candFs2, dir)
      | some candidate_prompt =>
        match d.get? "metrics_before" with
        | none => (.error "Failed to apply candidate: 'metrics_before'", candFs2, dir)
        | some metrics_before =>
          match d.get? "metrics_after" with
          | none => (.error "Failed to apply candidate: 'metrics_after'", candFs2, dir)
          | some metrics_after =>
            match d.get? "improvement" with
            | none => (.error "Failed to apply candidate: 'improvement'", candFs2, dir)
            | some improvement =>
              if !candidate_prompt.truthy then
                (.error "Invalid candidate prompt in stored data", candFs2, dir)
              else
                match metrics_before.get? "avg_score" with
                | none => (.error "Failed to apply candidate: 'avg_score'", candFs2, dir)
                | some previous_score =>
                  let saved := save_prompt_version dir candidate_prompt.pystr metrics_after 1
                    (JVal.obj
                      [("improvement", improvement),
                       ("previous_score", previous_score),
                       ("applied_via_api", .jbool true),
                       ("candidate_id", .jstr candidate_id)]) nowIso
                  (.applied (JVal.obj
                    [("candidate_id", .jstr candidate_id),
                     ("metrics_before", metricsView metrics_before),
                     ("metrics_after", metricsView metrics_after),
                     ("improvement", improvement),
                     ("enhanced_metrics", calculate_enhanced_metrics metrics_before metrics_after),
                     ("saved_path", .jstr saved.2)]), candFs2, saved.1)

/-- `rollback_to_version(version)` (optim_gepa.py lines 1354-1424) for one
agent. After the target version is loaded, line 1383 evaluates
`self.prompt_manager.get_available_versions(self.agent_type)` —
`PromptVersionManager` (lines 34-120) defines only `save_prompt_version`,
`load_prompt_version` and `list_versions`, so the attribute access raises
`AttributeError`, caught by the except at lines 1417-1424 into the
`Rollback failed: ...` error dict. (The current-prompt evaluation at lines
1379-1380 may raise first; every path through line 1383 ends in the same
except handler.) No version is ever saved and the directory is unchanged;
an unparseable target file raises in `json.load` with the same caught
outcome, here folded into the not-found message. -/
def rollback_to_version (dir : AgentDir) (agent_type : String) (version : Int) :
    OpResult × AgentDir :=
  match load_prompt_version dir (some version) with
  | none =>
    (.error ("Version " ++ toString version ++ " not found for " ++ agent_type), dir)
  | some _ =>
    (.error "Rollback failed: 'PromptVersionManager' object has no attribute 'get_available_versions'",
     dir)

/-! ## Retention sweeper (`optim_gepa.py` lines 1590-1744)

`cleanup_expired_data` computes `cutoff_date = now - timedelta(days=
max_age_days)` and dispatches per category; the per-category functions take
the cutoff, and all datetimes in the model live on one totally ordered
integer scale (the encoding below is strictly monotone in the calendar
order `datetime` uses, and every use is a comparison). -/

/-- Decimal digit of a character, if any. -/
def digitVal? (c : Char) : Option Nat :=
  if '0' ≤ c ∧ c ≤ '9' then some (c.toNat - 48) else none

/-- The order-preserving integer encoding of a calendar datetime. -/
def encodeDT (y mo d h mi s : Nat) : Int :=
  Int.ofNat (((((y * 100 + mo) * 100 + d) * 100 + h) * 100 + mi) * 100 + s)

/-- The two-digit number at position `i` of the character list. -/
def digits2At (cs : List Char) (i : Nat) : Option Nat := do
  let a ← digitVal? (cs.getD i ' ')
  let b ← digitVal? (cs.getD (i + 1) ' ')
  pure (a * 10 + b)

/-- `datetime.fromisoformat` on the `YYYY-MM-DD[THH:MM:SS[.ffffff…]]`
strings the repository writes, as the order-preserving encoding; `none`
models the ValueError/TypeError a malformed string raises. Trailing
fractional-second/offset text is accepted without validation — the
repository only ever compares the parsed values. -/
def parseIso? (s : String) : Option Int := do
  let cs := s.toList
  let yHi ← digits2At cs 0
  let yLo ← digits2At cs 2
  let y := yHi * 100 + yLo
  if cs.getD 4 ' ' ≠ '-' then none else
  let mo ← digits2At cs 5
  if cs.getD 7 ' ' ≠ '-' then none else
  let d ← digits2At cs 8
  if mo < 1 ∨ 12 < mo ∨ d < 1 ∨ 31 < d then none else
  if cs.length = 10 then some (encodeDT y mo d 0 0 0) else
  if cs.getD 10 ' ' ≠ 'T' then none else
  let h ← digits2At cs 11
  if cs.getD 13 ' ' ≠ ':' then none else
  let mi ← digits2At cs 14
  if cs.getD 16 ' ' ≠ ':' then none else
  let sec ← digits2At cs 17
  if 23 < h ∨ 59 < mi ∨ 59 < sec then none else
  some (encodeDT y mo d h mi sec)

/-- The inner loop of `_is_candidate_referenced` (optim_gepa.py lines
1734-1739): walk the entries; an entry that is not a dict makes
`entry.get` raise, a missing/unparseable timestamp makes
`datetime.fromisoformat` raise — each caught by the function's except into
`False`. A recent entry whose `str()` contains the candidate id returns
`True`. -/
def refEntriesLoop (candidate_id : String) (cutoff : Int) : JVal → Bool
  | .jarrCons e t =>
    if e.isObj then
      match e.getD "timestamp" (.jstr "") with
      | .jstr ts =>
        match parseIso? ts with
        | some entry_date =>
          if entry_date > cutoff && strContains e.pystr candidate_id then true
          else refEntriesLoop candidate_id cutoff t
        | none => false
      | _ => false
    else false
  | _ => false

/-- `_is_candidate_referenced(candidate_data, cutoff_date)` (optim_gepa.py
lines 1723-1744). `history` is the parsed
`data/gepa/optimization_history.json` (`none` = file missing; an
unreadable file raises `json.loads` with the same `False` outcome). Note
two things this code does against the repository's own data: (1) the
history file is written by `save_gepa_history_entry` (dspy-server.py lines
2732-2770) as a top-level JSON **array**, and `history_data.get('entries',
[])` on a list raises AttributeError, caught into `False`; (2) the
candidate id is read from key `'id'`, but `_save_candidate` stores it
under `'candidate_id'`, so for real candidate files the searched-for id is
`''`. Iterating a non-list `entries` value likewise raises. -/
def is_candidate_referenced (candidate_data : JVal) (history : Option JVal)
    (cutoff : Int) : Bool :=
  match history with
  | none => false
  | some h =>
    if h.isObj then
      match candidate_data.getD "id" (.jstr "") with
      | .jstr candidate_id =>
        match h.getD "entries" .jarrNil with
        | .jarrNil => false
        | .jarrCons e t => refEntriesLoop candidate_id cutoff (.jarrCons e t)
        | _ => false
      | _ => false
    else false

/-- One history entry as appended by `save_gepa_history_entry`
(dspy-server.py lines 2748-2756). -/
def historyEntry (timestamp task : String) (metrics_before metrics_after : JVal)
    (improvement : Int) (saved_path : String) : JVal :=
  JVal.obj
    [("timestamp", .jstr timestamp), ("task", .jstr task),
     ("metrics_before", metrics_before), ("metrics_after", metrics_after),
     ("improvement", .jnum improvement),
     ("file_paths", .jarrCons (.jstr saved_path) .jarrNil),
     ("notes", .jstr "GEPA optimization applied via API")]

/-- The history file as `save_gepa_history_entry` writes it: a top-level
JSON array of entries (capped to the last 100). -/
def historyFileOf (entries : List JVal) : JVal := JVal.arr entries

/-- `_cleanup_candidates(candidates_dir, cutoff_date)` (optim_gepa.py
lines 1590-1620): for each `*.json` candidate file, if its modification
time is before the cutoff, keep it when `_is_candidate_referenced` says it
is referenced, else unlink it; newer files are kept. A file whose contents
fail to parse raises, is caught (line 1614), left in place and counted in
neither statistic. Returns the remaining directory and the
(cleaned, kept) counters. -/
def cleanup_candidates (fs : CandStore) (cutoff : Int) (history : Option JVal) :
    CandStore × Nat × Nat :=
  fs.foldl
    (fun acc f =>
      if strEndsWith f.name ".json" then
        if f.mtime < cutoff then
          match f.data with
          | none => (acc.1 ++ [f], acc.2.1, acc.2.2)
          | some d =>
            if is_candidate_referenced d history cutoff then
              (acc.1 ++ [f], acc.2.1, acc.2.2 + 1)
            else
              (acc.1, acc.2.1 + 1, acc.2.2)
        else (acc.1 ++ [f], acc.2.1, acc.2.2 + 1)
      else (acc.1 ++ [f], acc.2.1, acc.2.2))
    ([], 0, 0)

/-- Is the version file flagged as a backup? (`_cleanup_backups` line
1671: `version_data.get('metadata', {}).get('backup_snapshot', False)`
truthy; a file that fails to parse is skipped by the except — which, for
the deletion loop, is the same as not being backup-flagged.) -/
def backupFlag (f : VersionFile) : Bool :=
  match f.data with
  | some d => (d.metadata.getD "backup_snapshot" (.jbool false)).truthy
  | none => false

/-- The sort key of `_cleanup_backups` (line 1677):
`metadata.get('backup_timestamp', '')`. The repository writes this key as
an ISO string (`create_backup_snapshot`, line 1490); a non-string value
would make Python's sort raise, a path not exercised here. -/
def backupTimestampKey (f : VersionFile) : String :=
  match f.data with
  | some d =>
    match d.metadata.getD "backup_timestamp" (.jstr "") with
    | .jstr s => s
    | _ => ""
  | none => ""

/-- Is the file one of the backup-flagged `v*.json` files that
`_cleanup_backups` collects for an agent? -/
def isBackupVersionFile (f : VersionFile) : Bool :=
  (strStartsWith f.name "v" && strEndsWith f.name ".json") && backupFlag f

/-- The `backup_files` list `_cleanup_backups` collects for one agent
(lines 1665-1674): the `v*.json` files whose metadata carries a truthy
`backup_snapshot`. -/
def backupFiles (files : List VersionFile) : List VersionFile :=
  (files.filter (fun f =>
    strStartsWith f.name "v" && strEndsWith f.name ".json")).filter backupFlag

/-- The comparison `backup_files.sort(key=..., reverse=True)` sorts by:
`a` precedes `b` when `a`'s backup timestamp is at least `b`'s. -/
def backupNewerEq (a b : VersionFile) : Prop :=
  strLe (backupTimestampKey b) (backupTimestampKey a) = true

instance : DecidableRel backupNewerEq := fun a b =>
  inferInstanceAs (Decidable (strLe (backupTimestampKey b) (backupTimestampKey a) = true))

/-- `backup_files` sorted newest-first by backup timestamp (line 1677). -/
def sortedBackups (files : List VersionFile) : List VersionFile :=
  (backupFiles files).insertionSort backupNewerEq

/-- The per-agent body of `_cleanup_backups(prompts_dir, keep_recent)`
(optim_gepa.py lines 1663-1689): collect the backup-flagged `v*.json`
files, sort them by backup timestamp newest-first (Python's stable sort
with `reverse=True`), keep the first `keep_recent` and unlink the rest.
Returns the remaining directory and the (cleaned, kept) counters. -/
def cleanup_backups_agent (files : List VersionFile) (keep_recent : Nat) :
    List VersionFile × Nat × Nat :=
  let deleted := (sortedBackups files).drop keep_recent
  (files.filter (fun f => !(decide (f ∈ deleted))),
   deleted.length, (sortedBackups files).length - deleted.length)

/-! ## Sample stores used by the concrete theorems -/

/-- A well-formed version file as `save_prompt_version` writes them. -/
def sampleVersionFile (iteration : Int) (date prompt : String) (score : Int) : VersionFile :=
  { name := "v" ++ pad3 iteration ++ "_" ++ date ++ ".json",
    data := some
      { timestamp := date ++ "T00:00:00", iteration := iteration, prompt := prompt,
        metrics := JVal.obj [("avg_score", .jnum score)], metadata := .jobjNil } }

/-- An agent directory holding baseline version 0 and accepted version 1,
with `current.md` pointing at 1. -/
def sampleDir : AgentDir :=
  { files := [sampleVersionFile 0 "2026-01-01" "base prompt" 50,
              sampleVersionFile 1 "2026-01-02" "better prompt" 60],
    currentVersion := some 1 }

/-- A backup-flagged version file (`create_backup_snapshot` metadata shape,
optim_gepa.py lines 1487-1492). -/
def sampleBackupFile (iteration : Int) (date backupTs : String) : VersionFile :=
  { name := "v" ++ pad3 iteration ++ "_" ++ date ++ ".json",
    data := some
      { timestamp := date ++ "T00:00:00", iteration := iteration, prompt := "backup prompt",
        metrics := .jobjNil,
        metadata := JVal.obj
          [("backup_snapshot", .jbool true), ("backup_reason", .jstr "Manual backup"),
           ("backup_timestamp", .jstr backupTs), ("is_manual_backup", .jbool true)] } }

/-- Ten backup snapshots (timestamps strictly increasing) together with a
non-backup baseline version, as one agent's prompt directory. -/
def sampleBackupSet : List VersionFile :=
  [ sampleVersionFile 0 "2026-01-01" "base prompt" 50,
    sampleBackupFile 1 "2026-01-01" "2026-01-01T10:00:00",
    sampleBackupFile 2 "2026-01-02" "2026-01-02T10:00:00",
    sampleBackupFile 3 "2026-01-03" "2026-01-03T10:00:00",
    sampleBackupFile 4 "2026-01-04" "2026-01-04T10:00:00",
    sampleBackupFile 5 "2026-01-05" "2026-01-05T10:00:00",
    sampleBackupFile 6 "2026-01-06" "2026-01-06T10:00:00",
    sampleBackupFile 7 "2026-01-07" "2026-01-07T10:00:00",
    sampleBackupFile 8 "2026-01-08" "2026-01-08T10:00:00",
    sampleBackupFile 9 "2026-01-09" "2026-01-09T10:00:00",
    sampleBackupFile 10 "2026-01-10" "2026-01-10T10:00:00" ]

/-- A stored candidate file in `_save_candidate`'s on-disk shape, last
modified 2025-12-01 (older than a 2026-01-01 cutoff). -/
def sampleOldCandidate : CandFile :=
  { name := "abc123abc123abc1.json", mtime := encodeDT 2025 12 1 0 0 0,
    data := some (JVal.obj
      [("agent_type", .jstr "quick-letter"),
       ("original_prompt", .jstr "ORIG"),
       ("optimized_prompt", .jstr "OPT"),
       ("candidate_id", .jstr "abc123abc123abc1"),
       ("created_at", .jstr "2025-12-01T00:00:00"),
       ("expires_at", .jnum 100)]) }

/-- A recent (2026-01-10) history entry whose rendering mentions the
candidate id `abc123abc123abc1`. -/
def sampleEntryWithId : JVal :=
  JVal.obj
    [("timestamp", .jstr "2026-01-10T00:00:00"),
     ("task", .jstr "quick-letter"),
     ("file_paths", JVal.arr [.jstr "abc123abc123abc1"]),
     ("notes", .jstr "GEPA optimization applied via API")]

/-- A recent (2026-01-10) history entry about another agent, mentioning no
candidate id. -/
def sampleEntryOther : JVal :=
  JVal.obj
    [("timestamp", .jstr "2026-01-10T00:00:00"),
     ("task", .jstr "tavi-report"),
     ("notes", .jstr "GEPA optimization applied via API")]

/-! ## Persisted-state write registry (`C9`)

The spec's three cross-process-visible record categories, and how each
write of such a record in the source is performed. -/

/-- How a file write is performed. -/
inductive WriteMethod where
  | atomicTempRename : WriteMethod
  | plainOpenWrite : WriteMethod
deriving DecidableEq, Repr

/-- The spec's cross-process-visible record categories. -/
inductive StateCategory where
  | jobs : StateCategory
  | candidates : StateCategory
  | versions : StateCategory
deriving DecidableEq, Repr

/-- One write of a persisted record in the source. -/
structure PersistedWrite where
  category : StateCategory
  sourceFn : String
  method : WriteMethod
deriving DecidableEq, Repr

/-- Every write of a job record, candidate file or prompt-version file in
the source. Job records: `overnight_optimize_endpoint` (dspy-server.py
lines 2496-2498), `update_job_status` (lines 150-151) and the
finalization block of `process_overnight_job` (lines 357-358) all use a
plain `open(path, 'w'); json.dump`. Candidates: `_save_candidate`
(optim_gepa.py line 1088) uses `atomic_write_json`. Versions:
`save_prompt_version` uses `atomic_write_json` for the version file (line
58) and `atomic_write_text` for `current.md` (line 67). -/
def repoPersistedWrites : List PersistedWrite :=
  [ { category := .jobs, sourceFn := "overnight_optimize_endpoint",
      method := .plainOpenWrite },
    { category := .jobs, sourceFn := "update_job_status",
      method := .plainOpenWrite },
    { category := .jobs, sourceFn := "process_overnight_job.finalization",
      method := .plainOpenWrite },
    { category := .candidates, sourceFn := "GEPAOptimizer._save_candidate",
      method := .atomicTempRename },
    { category := .versions, sourceFn := "PromptVersionManager.save_prompt_version.version_file",
      method := .atomicTempRename },
    { category := .versions, sourceFn := "PromptVersionManager.save_prompt_version.current_md",
      method := .atomicTempRename } ]

/-- What a concurrent reader of the target path can observe while one
write is in flight. -/
inductive FileView where
  | oldContent : FileView
  | newContent : FileView
  | truncatedHalfWritten : FileView
deriving DecidableEq, Repr

/-- The observable states of the target path during a write.
`atomic_write_json`/`atomic_write_text` (llm/utils.py lines 16-83) stream
into a `tempfile.mkstemp` file in the same directory, fsync it and
`shutil.move` it over the target, so the target path itself only ever
shows the complete old or complete new contents; a plain
`open(path, 'w')` truncates the target in place and then streams into it,
so a reader can open a truncated or half-written file. -/
def observableDuring : WriteMethod → List FileView
  | .atomicTempRename => [.oldContent, .newContent]
  | .plainOpenWrite => [.oldContent, .truncatedHalfWritten, .newContent]

/-! ## Theorems -/

/-- Once the worker has returned from a job, no further action of its
script touches the job file. -/
theorem runSteps_halted (now : String) (l : List WAction) (f : JobFile) :
    runSteps now l (f, true) = (f, true) := by
  induction l with
  | nil => rfl
  | cons a l ih =>
    simpa [runSteps, List.foldl_cons, stepW] using ih

/-- Unfolding one worker action. -/
theorem runSteps_cons (now : String) (a : WAction) (l : List WAction) (st : WState) :
    runSteps now (a :: l) st = runSteps now l (stepW now st a) := rfl

/-- The cancel endpoint's summary keeps the worker's `'cancel' in
summary.lower()` test true. -/
theorem cancelSummary_contains_cancel :
    strContains (strLower "Job was cancelled before completion") "cancel" = true := by
  decide

/-- C1 (counterexample): the claim "once a job's status is DONE or ERROR it
never leaves that terminal state; in particular, after a cancel request
moves a RUNNING job to ERROR, no subsequent update sets its status back to
RUNNING or DONE and no further progress updates occur" is false on the
code. Concrete run: a one-task overnight job is RUNNING (progress 10) after
its first four job-file actions; a cancel request then moves it to ERROR
with the cancellation summary; yet the worker's next update (line 271)
rewrites the file to RUNNING with progress 20, the subsequent cancellation
checks no longer see an ERROR status, and the job finishes DONE with
progress 100. -/
theorem claim_C1_counterexample :
    (runSteps "t1" ((workerScript ["quick-letter"] 0 0).take 4)
        (JobFile.ok (mkQueuedJob "overnight-job-1" "t0" ["quick-letter"]), false)).1.statusOf
      = some "RUNNING" ∧
    (runSteps "t1" ((workerScript ["quick-letter"] 0 0).take 4)
        (JobFile.ok (mkQueuedJob "overnight-job-1" "t0" ["quick-letter"]), false)).1.progressOf
      = some 10 ∧
    (cancel_request (runSteps "t1" ((workerScript ["quick-letter"] 0 0).take 4)
        (JobFile.ok (mkQueuedJob "overnight-job-1" "t0" ["quick-letter"]), false)).1
        "t1").statusOf
      = some "ERROR" ∧
    is_job_cancelled (cancel_request
        (runSteps "t1" ((workerScript ["quick-letter"] 0 0).take 4)
          (JobFile.ok (mkQueuedJob "overnight-job-1" "t0" ["quick-letter"]), false)).1 "t1")
      = true ∧
    (runWithCancelAt "t1" (workerScript ["quick-letter"] 0 0) 4
        (JobFile.ok (mkQueuedJob "overnight-job-1" "t0" ["quick-letter"]))).1.statusOf
      = some "DONE" ∧
    (runWithCancelAt "t1" (workerScript ["quick-letter"] 0 0) 4
        (JobFile.ok (mkQueuedJob "overnight-job-1" "t0" ["quick-letter"]))).1.progressOf
      = some 100 := by
  decide

/-- C1 (amended): a cancel request against a terminal (DONE/ERROR) job is
rejected and changes nothing; and when the worker's next job-file action
after a cancel request against a RUNNING job is one of its cancellation
checkpoints, the worker halts there: the job stays at ERROR, progress 0,
with the cancellation summary, and the worker performs no further job-file
action. (A cancel landing just before a worker status write is instead
overwritten — see the counterexample.) -/
theorem claim_C1_amended (now : String) (tasks : List String) (g r : Nat) (k : Nat)
    (j0 j1 : Job) (rest : List WAction)
    (hdrop : (workerScript tasks g r).drop k = WAction.check :: rest)
    (hpre : runSteps now ((workerScript tasks g r).take k) (JobFile.ok j0, false)
              = (JobFile.ok j1, false))
    (hstat : j1.status = "RUNNING") :
    (∀ j2 : Job, j2.status = "DONE" ∨ j2.status = "ERROR" →
        cancel_request (JobFile.ok j2) now = JobFile.ok j2) ∧
    runWithCancelAt now (workerScript tasks g r) k (JobFile.ok j0)
      = (cancel_request (JobFile.ok j1) now, true) ∧
    (cancel_request (JobFile.ok j1) now).statusOf = some "ERROR" ∧
    (cancel_request (JobFile.ok j1) now).progressOf = some 0 ∧
    (cancel_request (JobFile.ok j1) now).summaryOf = some "Job was cancelled before completion" ∧
    is_job_cancelled (cancel_request (JobFile.ok j1) now) = true := by
  have hcancel : cancel_request (JobFile.ok j1) now =
      JobFile.ok { j1 with
        status := "ERROR", progress := some 0,
        current_phase := some "Job cancelled by user",
        summary := some "Job was cancelled before completion",
        estimated_completion := some "", last_updated := some now,
        completed_at := some now } := by
    simp [cancel_request, hstat, update_job_status]
  have hcanc : is_job_cancelled (cancel_request (JobFile.ok j1) now) = true := by
    rw [hcancel]
    simp [is_job_cancelled]
    exact cancelSummary_contains_cancel
  refine ⟨?_, ?_, ?_, ?_, ?_, hcanc⟩
  · intro j2 h2
    rcases h2 with h2 | h2 <;> simp [cancel_request, h2]
  · unfold runWithCancelAt
    rw [hpre, hdrop, runSteps_cons]
    have hstep : stepW now (cancel_request (JobFile.ok j1) now, false) WAction.check
        = (cancel_request (JobFile.ok j1) now, true) := by
      simp [stepW, hcanc]
    rw [hstep, runSteps_halted]
  · rw [hcancel]; rfl
  · rw [hcancel]; rfl
  · rw [hcancel]; rfl

/-- C1 (witness): the amended statement at a concrete run — one task, the
cancel request observed by the checkpoint that follows the
"ASR corrections processed" update. -/
theorem claim_C1_witness :
    (∀ j2 : Job, j2.status = "DONE" ∨ j2.status = "ERROR" →
        cancel_request (JobFile.ok j2) "t1" = JobFile.ok j2) ∧
    runWithCancelAt "t1" (workerScript ["quick-letter"] 0 0) 5
        (JobFile.ok (mkQueuedJob "overnight-job-1" "t0" ["quick-letter"]))
      = (cancel_request (JobFile.ok { mkQueuedJob "overnight-job-1" "t0" ["quick-letter"] with
          status := "RUNNING", progress := some 20,
          current_phase := some "ASR corrections processed",
          summary := some "", estimated_completion := some "",
          last_updated := some "t1" }) "t1", true) ∧
    (cancel_request (JobFile.ok { mkQueuedJob "overnight-job-1" "t0" ["quick-letter"] with
        status := "RUNNING", progress := some 20,
        current_phase := some "ASR corrections processed",
        summary := some "", estimated_completion := some "",
        last_updated := some "t1" }) "t1").statusOf = some "ERROR" ∧
    (cancel_request (JobFile.ok { mkQueuedJob "overnight-job-1" "t0" ["quick-letter"] with
        status := "RUNNING", progress := some 20,
        current_phase := some "ASR corrections processed",
        summary := some "", estimated_completion := some "",
        last_updated := some "t1" }) "t1").progressOf = some 0 ∧
    (cancel_request (JobFile.ok { mkQueuedJob "overnight-job-1" "t0" ["quick-letter"] with
        status := "RUNNING", progress := some 20,
        current_phase := some "ASR corrections processed",
        summary := some "", estimated_completion := some "",
        last_updated := some "t1" }) "t1").summaryOf
      = some "Job was cancelled before completion" ∧
    is_job_cancelled (cancel_request
        (JobFile.ok { mkQueuedJob "overnight-job-1" "t0" ["quick-letter"] with
          status := "RUNNING", progress := some 20,
          current_phase := some "ASR corrections processed",
          summary := some "", estimated_completion := some "",
          last_updated := some "t1" }) "t1") = true :=
  claim_C1_amended "t1" ["quick-letter"] 0 0 5
    (mkQueuedJob "overnight-job-1" "t0" ["quick-letter"])
    { mkQueuedJob "overnight-job-1" "t0" ["quick-letter"] with
      status := "RUNNING", progress := some 20,
      current_phase := some "ASR corrections processed",
      summary := some "", estimated_completion := some "",
      last_updated := some "t1" }
    ((workerScript ["quick-letter"] 0 0).drop 6)
    (by decide) (by decide) rfl

/-- C8 (counterexample): the claim "when an unhandled failure occurs during
a phase, progress is left at its last successfully persisted value" is
false on the code: a RUNNING job whose last persisted progress is 20 ends
with progress 0 after the failure handler runs, because the handler calls
`update_job_status(job_id, 'ERROR', 0, 'Job failed', error_msg)`. -/
theorem claim_C8_counterexample :
    (JobFile.ok { mkQueuedJob "overnight-job-1" "t0" ["quick-letter"] with
        status := "RUNNING", progress := some 20 }).progressOf = some 20 ∧
    (handle_job_failure
        (JobFile.ok { mkQueuedJob "overnight-job-1" "t0" ["quick-letter"] with
          status := "RUNNING", progress := some 20 })
        "Overnight job overnight-job-1 failed: boom" "t1").progressOf = some 0 ∧
    (handle_job_failure
        (JobFile.ok { mkQueuedJob "overnight-job-1" "t0" ["quick-letter"] with
          status := "RUNNING", progress := some 20 })
        "Overnight job overnight-job-1 failed: boom" "t1").statusOf = some "ERROR" := by
  decide

/-- C8 (amended): when an unhandled failure occurs during a phase, the
job's status becomes ERROR with the exception message recorded in its
summary, `completed_at` is stamped — and progress is reset to 0, not left
at its last persisted value. -/
theorem claim_C8_amended (j : Job) (error_msg now : String) :
    handle_job_failure (JobFile.ok j) error_msg now
      = JobFile.ok { j with
          status := "ERROR", progress := some 0,
          current_phase := some "Job failed", summary := some error_msg,
          estimated_completion := some "", last_updated := some now,
          completed_at := some now } := by
  simp [handle_job_failure, update_job_status]

/-- C10 (confirmed): the worker's cancellation check returns cancelled when
the job's record file is missing or unreadable, and in that case a worker
at one of its checkpoints abandons the job: the file is untouched, no
further status update is written, and no error is raised (the check
itself absorbs the read failure). For an intact record the check is
exactly "status is ERROR and the summary contains 'cancel'". -/
theorem claim_C10 (now : String) (f : JobFile) (rest : List WAction) (j : Job)
    (h : f = JobFile.missing ∨ f = JobFile.corrupt) :
    is_job_cancelled f = true ∧
    runSteps now (WAction.check :: rest) (f, false) = (f, true) ∧
    is_job_cancelled (JobFile.ok j)
      = (j.status == "ERROR" && strContains (strLower (j.summary.getD "")) "cancel") := by
  have h1 : is_job_cancelled f = true := by
    rcases h with h | h <;> simp [h, is_job_cancelled]
  refine ⟨h1, ?_, rfl⟩
  rw [runSteps_cons]
  have : stepW now (f, false) WAction.check = (f, true) := by
    simp [stepW, h1]
  rw [this, runSteps_halted]

set_option maxRecDepth 40000 in
/-- C2 (code_bug): the claim — "for every agent and existing target
iteration k, rollback(agent, k) creates exactly one new version whose
content equals version k's, numbered current max + 1, with rollback
provenance; afterwards list_versions has strictly one more entry and the
entry at k is unchanged" — matches `rollback_to_version`'s documented
purpose, but the code calls
`self.prompt_manager.get_available_versions(...)` (line 1383), a method
`PromptVersionManager` does not define, so every rollback raises
AttributeError into the caught-error dict: no version is created and the
history is unchanged. Concretely, with versions 0 and 1 on disk,
rollback to the existing version 0 returns the error dict, leaves the
directory untouched, and `list_versions` is unchanged instead of one
entry longer. -/
theorem claim_C2_code_bug :
    load_prompt_version sampleDir (some 0) ≠ none ∧
    (rollback_to_version sampleDir "quick-letter" 0).1.isError = true ∧
    (rollback_to_version sampleDir "quick-letter" 0).2 = sampleDir ∧
    (list_versions (rollback_to_version sampleDir "quick-letter" 0).2).length
      = (list_versions sampleDir).length ∧
    (list_versions (rollback_to_version sampleDir "quick-letter" 0).2).head?
      = (list_versions sampleDir).head? := by
  decide

set_option maxRecDepth 400000 in
/-- C3 (code_bug): the claim — "for every unexpired saved preview
candidate, apply_candidate returns before/after metrics plus a version
reference and produces exactly one new Prompt Version; an unknown or
expired id yields a not-found error" — matches `apply_candidate`'s
documented purpose, but the code reads `candidate_data['metrics_before']`
and `['metrics_after']` (lines 1296-1297) while `run_optimization_preview`
saves those dicts under `baseline_metrics`/`candidate_metrics` (lines
1236-1251), so applying any preview-saved candidate raises KeyError into
the caught-error dict and writes no version. Concretely: a candidate saved
by the preview pipeline loads fine (stored, unexpired), yet apply returns
the `'metrics_before'` error and leaves the version directory unchanged;
the not-found half of the claim does hold for an unknown id. -/
theorem claim_C3_code_bug :
    (load_candidate
        (save_candidate [] (previewCandidateData "quick-letter" "ORIG" "OPT"
          (JVal.obj [("avg_score", .jnum 50)]) (JVal.obj [("avg_score", .jnum 62)])
          12 false .jarrNil .jarrNil) 1000 "2026-01-01T00:00:00").1
        (save_candidate [] (previewCandidateData "quick-letter" "ORIG" "OPT"
          (JVal.obj [("avg_score", .jnum 50)]) (JVal.obj [("avg_score", .jnum 62)])
          12 false .jarrNil .jarrNil) 1000 "2026-01-01T00:00:00").2 2000).1.isSome = true ∧
    (apply_candidate
        (save_candidate [] (previewCandidateData "quick-letter" "ORIG" "OPT"
          (JVal.obj [("avg_score", .jnum 50)]) (JVal.obj [("avg_score", .jnum 62)])
          12 false .jarrNil .jarrNil) 1000 "2026-01-01T00:00:00").1
        sampleDir
        (save_candidate [] (previewCandidateData "quick-letter" "ORIG" "OPT"
          (JVal.obj [("avg_score", .jnum 50)]) (JVal.obj [("avg_score", .jnum 62)])
          12 false .jarrNil .jarrNil) 1000 "2026-01-01T00:00:00").2 2000
        "2026-01-01T01:00:00").1
      = OpResult.error "Failed to apply candidate: 'metrics_before'" ∧
    (apply_candidate
        (save_candidate [] (previewCandidateData "quick-letter" "ORIG" "OPT"
          (JVal.obj [("avg_score", .jnum 50)]) (JVal.obj [("avg_score", .jnum 62)])
          12 false .jarrNil .jarrNil) 1000 "2026-01-01T00:00:00").1
        sampleDir
        (save_candidate [] (previewCandidateData "quick-letter" "ORIG" "OPT"
          (JVal.obj [("avg_score", .jnum 50)]) (JVal.obj [("avg_score", .jnum 62)])
          12 false .jarrNil .jarrNil) 1000 "2026-01-01T00:00:00").2 2000
        "2026-01-01T01:00:00").2.2 = sampleDir ∧
    (apply_candidate
        (save_candidate [] (previewCandidateData "quick-letter" "ORIG" "OPT"
          (JVal.obj [("avg_score", .jnum 50)]) (JVal.obj [("avg_score", .jnum 62)])
          12 false .jarrNil .jarrNil) 1000 "2026-01-01T00:00:00").1
        sampleDir "no-such-id" 2000 "2026-01-01T01:00:00").1
      = OpResult.error "Candidate no-such-id not found or expired" := by
  decide

/-- C4 (confirmed): for every (agent, original, optimized) triple, saving a
candidate is deterministic in its identifier — the returned id is the
content hash of the triple alone, so two saves of candidate dicts carrying
the same triple (at any times, against any stores, with any other fields)
return the same candidate_id. -/
theorem claim_C4 (agent original optimized : String) (d1 d2 : JVal)
    (fs1 fs2 : CandStore) (now1 now2 : Int) (iso1 iso2 : String)
    (h1o : d1.get? "original_prompt" = some (.jstr original))
    (h1p : d1.get? "optimized_prompt" = some (.jstr optimized))
    (h1a : d1.get? "agent_type" = some (.jstr agent))
    (h2o : d2.get? "original_prompt" = some (.jstr original))
    (h2p : d2.get? "optimized_prompt" = some (.jstr optimized))
    (h2a : d2.get? "agent_type" = some (.jstr agent)) :
    (save_candidate fs1 d1 now1 iso1).2 = generate_candidate_id original optimized agent ∧
    (save_candidate fs2 d2 now2 iso2).2 = (save_candidate fs1 d1 now1 iso1).2 := by
  unfold save_candidate
  rw [h1o, h1p, h1a, h2o, h2p, h2a]
  simp [JVal.pystr]

/-- C4 (witness): two preview candidates for the same triple saved at
different times, with different metrics and against different stores,
receive the same id. -/
theorem claim_C4_witness :
    (save_candidate [] (previewCandidateData "quick-letter" "ORIG" "OPT"
        (JVal.obj [("avg_score", .jnum 50)]) (JVal.obj [("avg_score", .jnum 62)])
        12 false .jarrNil .jarrNil) 1000 "2026-01-01T00:00:00").2
      = generate_candidate_id "ORIG" "OPT" "quick-letter" ∧
    (save_candidate [{ name := "other.json", mtime := 0, data := none }]
        (previewCandidateData "quick-letter" "ORIG" "OPT"
          (JVal.obj [("avg_score", .jnum 40)]) (JVal.obj [("avg_score", .jnum 70)])
          30 true .jarrNil .jarrNil) 2000 "2026-02-02T00:00:00").2
      = (save_candidate [] (previewCandidateData "quick-letter" "ORIG" "OPT"
          (JVal.obj [("avg_score", .jnum 50)]) (JVal.obj [("avg_score", .jnum 62)])
          12 false .jarrNil .jarrNil) 1000 "2026-01-01T00:00:00").2 :=
  claim_C4 "quick-letter" "ORIG" "OPT"
    (previewCandidateData "quick-letter" "ORIG" "OPT"
      (JVal.obj [("avg_score", .jnum 50)]) (JVal.obj [("avg_score", .jnum 62)])
      12 false .jarrNil .jarrNil)
    (previewCandidateData "quick-letter" "ORIG" "OPT"
      (JVal.obj [("avg_score", .jnum 40)]) (JVal.obj [("avg_score", .jnum 70)])
      30 true .jarrNil .jarrNil)
    [] [{ name := "other.json", mtime := 0, data := none }]
    1000 2000 "2026-01-01T00:00:00" "2026-02-02T00:00:00"
    (by decide) (by decide) (by decide) (by decide) (by decide) (by decide)

/-- C5 (confirmed): a stored candidate whose `expires_at` lies strictly in
the past is never returned by `_load_candidate` — the load reports
not-found and unlinks the backing file as a side effect. -/
theorem claim_C5 (fs : CandStore) (f : CandFile) (d : JVal) (cid : String) (now e : Int)
    (hfind : fs.find? (fun g => g.name == cid ++ ".json") = some f)
    (hdata : f.data = some d)
    (hexp : d.getD "expires_at" (.jnum 0) = .jnum e)
    (hpast : e < now) :
    (load_candidate fs cid now).1 = none ∧
    (load_candidate fs cid now).2 = fs.filter (fun g => !(g.name == cid ++ ".json")) ∧
    ∀ g ∈ (load_candidate fs cid now).2, g.name ≠ cid ++ ".json" := by
  unfold load_candidate
  rw [hfind]
  dsimp only
  rw [hdata]
  dsimp only
  rw [hexp]
  dsimp only
  rw [if_pos hpast]
  refine ⟨rfl, rfl, ?_⟩
  intro g hg
  rw [List.mem_filter] at hg
  simpa using hg.2

/-- C5 (witness): loading a candidate that expired at time 5 when the
clock reads 10 returns not-found and leaves the store without the file. -/
theorem claim_C5_witness :
    (load_candidate
        [{ name := "aaaa.json", mtime := 0,
           data := some (JVal.obj [("candidate_id", .jstr "aaaa"), ("expires_at", .jnum 5)]) }]
        "aaaa" 10).1 = none ∧
    (load_candidate
        [{ name := "aaaa.json", mtime := 0,
           data := some (JVal.obj [("candidate_id", .jstr "aaaa"), ("expires_at", .jnum 5)]) }]
        "aaaa" 10).2
      = List.filter (fun g => !(g.name == "aaaa" ++ ".json"))
          [{ name := "aaaa.json", mtime := 0,
             data := some (JVal.obj [("candidate_id", .jstr "aaaa"), ("expires_at", .jnum 5)]) }] ∧
    ∀ g ∈ (load_candidate
        [{ name := "aaaa.json", mtime := 0,
           data := some (JVal.obj [("candidate_id", .jstr "aaaa"), ("expires_at", .jnum 5)]) }]
        "aaaa" 10).2, g.name ≠ "aaaa" ++ ".json" :=
  claim_C5
    [{ name := "aaaa.json", mtime := 0,
       data := some (JVal.obj [("candidate_id", .jstr "aaaa"), ("expires_at", .jnum 5)]) }]
    { name := "aaaa.json", mtime := 0,
      data := some (JVal.obj [("candidate_id", .jstr "aaaa"), ("expires_at", .jnum 5)]) }
    (JVal.obj [("candidate_id", .jstr "aaaa"), ("expires_at", .jnum 5)])
    "aaaa" 10 5 (by decide) (by decide) (by decide) (by decide)

/-- C9 (counterexample): the claim "every write of job records, candidates
and prompt versions goes through the atomic write-to-temp-then-rename
primitive" is false on the code: `update_job_status` (and the other two
job-record writers) write with a plain truncating `open(path, 'w');
json.dump`. -/
theorem claim_C9_counterexample :
    ¬ (∀ w ∈ repoPersistedWrites, w.method = WriteMethod.atomicTempRename) := by
  decide

/-- C9 (amended): candidate and prompt-version writes all go through the
atomic temp-then-rename primitive, under which a reader never observes a
truncated/partial file; but all three job-record writes use a plain
truncating `open(path, 'w')`, under which a concurrent reader can observe
a partially-written job file. -/
theorem claim_C9_amended (w : PersistedWrite) (hw : w ∈ repoPersistedWrites) :
    (w.category = StateCategory.candidates ∨ w.category = StateCategory.versions →
      w.method = WriteMethod.atomicTempRename ∧
      FileView.truncatedHalfWritten ∉ observableDuring w.method) ∧
    (w.category = StateCategory.jobs →
      w.method = WriteMethod.plainOpenWrite ∧
      FileView.truncatedHalfWritten ∈ observableDuring w.method) := by
  have hall : ∀ w ∈ repoPersistedWrites,
      (w.category = StateCategory.candidates ∨ w.category = StateCategory.versions →
        w.method = WriteMethod.atomicTempRename ∧
        FileView.truncatedHalfWritten ∉ observableDuring w.method) ∧
      (w.category = StateCategory.jobs →
        w.method = WriteMethod.plainOpenWrite ∧
        FileView.truncatedHalfWritten ∈ observableDuring w.method) := by
    decide
  exact hall w hw

/-- C9 (witness): the amended statement at the `_save_candidate` write. -/
theorem claim_C9_witness :
    ((StateCategory.candidates = StateCategory.candidates ∨
        StateCategory.candidates = StateCategory.versions →
      WriteMethod.atomicTempRename = WriteMethod.atomicTempRename ∧
      FileView.truncatedHalfWritten ∉ observableDuring WriteMethod.atomicTempRename) ∧
    (StateCategory.candidates = StateCategory.jobs →
      WriteMethod.atomicTempRename = WriteMethod.plainOpenWrite ∧
      FileView.truncatedHalfWritten ∈ observableDuring WriteMethod.atomicTempRename)) :=
  claim_C9_amended
    { category := .candidates, sourceFn := "GEPAOptimizer._save_candidate",
      method := .atomicTempRename }
    (by decide)

/-- Inversion of one step of the lexicographic comparison. -/
theorem charListLe_cons_iff (x y : Char) (xs ys : List Char) :
    charListLe (x :: xs) (y :: ys) = true ↔
      (x.toNat < y.toNat ∨ (x.toNat = y.toNat ∧ charListLe xs ys = true)) := by
  simp only [charListLe]
  by_cases h1 : x.toNat < y.toNat
  · simp [h1]
  · by_cases h2 : y.toNat < x.toNat
    · simp [h1, h2]; omega
    · have h3 : x.toNat = y.toNat := by omega
      simp [h1, h2, h3]

/-- The lexicographic comparison is reflexive. -/
theorem charListLe_refl : ∀ a : List Char, charListLe a a = true
  | [] => rfl
  | x :: xs => by
    rw [charListLe_cons_iff]
    exact Or.inr ⟨rfl, charListLe_refl xs⟩

/-- The lexicographic comparison is total. -/
theorem charListLe_total : ∀ a b : List Char, charListLe a b = true ∨ charListLe b a = true
  | [], _ => Or.inl rfl
  | _ :: _, [] => Or.inr rfl
  | x :: xs, y :: ys => by
    rw [charListLe_cons_iff, charListLe_cons_iff]
    rcases Nat.lt_trichotomy x.toNat y.toNat with h | h | h
    · exact Or.inl (Or.inl h)
    · rcases charListLe_total xs ys with ih | ih
      · exact Or.inl (Or.inr ⟨h, ih⟩)
      · exact Or.inr (Or.inr ⟨h.symm, ih⟩)
    · exact Or.inr (Or.inl h)

/-- The lexicographic comparison is transitive. -/
theorem charListLe_trans : ∀ a b c : List Char,
    charListLe a b = true → charListLe b c = true → charListLe a c = true
  | [], _, _, _, _ => rfl
  | _ :: _, [], _, h1, _ => by simp [charListLe] at h1
  | _ :: _, _ :: _, [], _, h2 => by simp [charListLe] at h2
  | x :: xs, y :: ys, z :: zs, h1, h2 => by
    rw [charListLe_cons_iff] at h1 h2 ⊢
    rcases h1 with h1 | ⟨h1e, h1t⟩
    · rcases h2 with h2 | ⟨h2e, _⟩
      · exact Or.inl (h1.trans h2)
      · exact Or.inl (h2e ▸ h1)
    · rcases h2 with h2 | ⟨h2e, h2t⟩
      · exact Or.inl (h1e ▸ h2)
      · exact Or.inr ⟨h1e.trans h2e, charListLe_trans xs ys zs h1t h2t⟩

/-- The lexicographic comparison is antisymmetric. -/
theorem charListLe_antisymm : ∀ a b : List Char,
    charListLe a b = true → charListLe b a = true → a = b
  | [], [], _, _ => rfl
  | [], _ :: _, _, h2 => by simp [charListLe] at h2
  | _ :: _, [], h1, _ => by simp [charListLe] at h1
  | x :: xs, y :: ys, h1, h2 => by
    rw [charListLe_cons_iff] at h1 h2
    rcases h1 with h1 | ⟨h1e, h1t⟩
    · rcases h2 with h2 | ⟨h2e, _⟩ <;> omega
    · rcases h2 with h2 | ⟨h2e, h2t⟩
      · omega
      · have hc : x = y := by
          apply Char.ext
          apply UInt32.ext
          simpa [Char.toNat, UInt32.toNat] using h1e
        rw [hc, charListLe_antisymm xs ys h1t h2t]

/-- Python string `<=` is reflexive. -/
theorem strLe_refl (a : String) : strLe a a = true := charListLe_refl _

/-- Python string `<=` is total. -/
theorem strLe_total (a b : String) : strLe a b = true ∨ strLe b a = true :=
  charListLe_total _ _

/-- Python string `<=` is transitive. -/
theorem strLe_trans {a b c : String} (h1 : strLe a b = true) (h2 : strLe b c = true) :
    strLe a c = true := charListLe_trans _ _ _ h1 h2

/-- Python string `<=` is antisymmetric. -/
theorem strLe_antisymm {a b : String} (h1 : strLe a b = true) (h2 : strLe b a = true) :
    a = b := by
  have h := charListLe_antisymm _ _ h1 h2
  cases a; cases b
  simpa [String.toList] using congrArg String.mk h

/-- The backup sort relation is total. -/
theorem backupNewerEq_isTotal : IsTotal VersionFile backupNewerEq :=
  ⟨fun a b => by
    unfold backupNewerEq
    rcases strLe_total (backupTimestampKey a) (backupTimestampKey b) with h | h
    · exact Or.inr h
    · exact Or.inl h⟩

/-- The backup sort relation is transitive. -/
theorem backupNewerEq_isTrans : IsTrans VersionFile backupNewerEq :=
  ⟨fun _ _ _ hab hbc => strLe_trans hbc hab⟩

/-- In a list sorted newest-first with pairwise-distinct backup
timestamps, an element lies among the first `N` exactly when fewer than
`N` elements of the list have a strictly more recent backup timestamp. -/
theorem sorted_mem_take_iff :
    ∀ (l : List VersionFile) (f : VersionFile) (N : Nat),
      l.Pairwise backupNewerEq →
      l.Pairwise (fun a b => backupTimestampKey a ≠ backupTimestampKey b) →
      f ∈ l →
      (f ∈ l.take N ↔
        l.countP (fun g => !(strLe (backupTimestampKey g) (backupTimestampKey f))) < N)
  | [], f, N, _, _, hf => absurd hf (List.not_mem_nil f)
  | g :: t, f, N, hs, hk, hf => by
    rcases List.mem_cons.mp hf with rfl | hft
    · have hcnt : (f :: t).countP
          (fun x => !(strLe (backupTimestampKey x) (backupTimestampKey f))) = 0 := by
        rw [List.countP_cons]
        have hg : (!(strLe (backupTimestampKey f) (backupTimestampKey f))) = false := by
          simp [strLe_refl]
        rw [List.countP_eq_zero.mpr, hg]
        · simp
        · intro x hx
          have hx2 := (List.pairwise_cons.mp hs).1 x hx
          simp only [backupNewerEq] at hx2
          simp [hx2]
      cases N with
      | zero => simp [hcnt]
      | succ M => simp [hcnt, List.take_succ_cons]
    · have hgf_ne : backupTimestampKey g ≠ backupTimestampKey f :=
        (List.pairwise_cons.mp hk).1 f hft
      have hgf_le : strLe (backupTimestampKey f) (backupTimestampKey g) = true := by
        have h := (List.pairwise_cons.mp hs).1 f hft
        simpa [backupNewerEq] using h
      have hgf : (!(strLe (backupTimestampKey g) (backupTimestampKey f))) = true := by
        rcases hle : strLe (backupTimestampKey g) (backupTimestampKey f) with _ | _
        · rfl
        · exact absurd (strLe_antisymm hgf_le hle) (fun h => hgf_ne h.symm)
      have hfneg : f ≠ g := by
        rintro rfl; exact hgf_ne rfl
      cases N with
      | zero => simp [List.countP_cons, hgf]
      | succ M =>
        rw [List.take_succ_cons, List.countP_cons]
        simp only [hgf, if_true]
        have ih := sorted_mem_take_iff t f M (List.pairwise_cons.mp hs).2
          (List.pairwise_cons.mp hk).2 hft
        constructor
        · intro hmem
          rcases List.mem_cons.mp hmem with h | h
          · exact absurd h hfneg
          · have hc := ih.mp h
            omega
        · intro hlt
          refine List.mem_cons_of_mem g (ih.mpr ?_)
          omega

/-- C6 (confirmed): after `_cleanup_backups` with `keep_recent = N` on an
agent directory with distinct files and pairwise-distinct backup
timestamps, (1) no version lacking the backup flag is deleted, and (2) a
backup-flagged version remains exactly when fewer than `N` of the agent's
backups have a strictly more recent backup timestamp — i.e. exactly the
`N` most recent backups survive. -/
theorem claim_C6 (files : List VersionFile) (N : Nat)
    (hnd : files.Nodup)
    (hkeys : (backupFiles files).Pairwise
      (fun a b => backupTimestampKey a ≠ backupTimestampKey b)) :
    (∀ f ∈ files, isBackupVersionFile f = false →
        f ∈ (cleanup_backups_agent files N).1) ∧
    (∀ f ∈ backupFiles files,
      (f ∈ (cleanup_backups_agent files N).1 ↔
        (backupFiles files).countP
          (fun g => !(strLe (backupTimestampKey g) (backupTimestampKey f))) < N)) := by
  haveI := backupNewerEq_isTotal
  haveI := backupNewerEq_isTrans
  have hperm : List.Perm (sortedBackups files) (backupFiles files) :=
    List.perm_insertionSort _ _
  have hbnodup : (backupFiles files).Nodup := (hnd.filter _).filter _
  have hsnodup : (sortedBackups files).Nodup := hperm.nodup_iff.mpr hbnodup
  have hsorted : (sortedBackups files).Pairwise backupNewerEq :=
    List.sorted_insertionSort backupNewerEq (backupFiles files)
  have hskeys : (sortedBackups files).Pairwise
      (fun a b => backupTimestampKey a ≠ backupTimestampKey b) :=
    (hperm.pairwise_iff (fun h => h.symm)).mpr hkeys
  constructor
  · intro f hfmem hnotb
    apply List.mem_filter.mpr
    refine ⟨hfmem, ?_⟩
    simp only [Bool.not_eq_true', decide_eq_false_iff_not]
    intro hdel
    have hfsorted : f ∈ sortedBackups files := List.mem_of_mem_drop hdel
    have hfb : f ∈ backupFiles files := hperm.mem_iff.mp hfsorted
    rcases List.mem_filter.mp hfb with ⟨hglob, hflag⟩
    rcases List.mem_filter.mp hglob with ⟨_, hglobb⟩
    unfold isBackupVersionFile at hnotb
    rw [hglobb, hflag] at hnotb
    simp at hnotb
  · intro f hfb
    have hfs : f ∈ sortedBackups files := hperm.mem_iff.mpr hfb
    have hiff := sorted_mem_take_iff (sortedBackups files) f N hsorted hskeys hfs
    have hfmem : f ∈ files := by
      rcases List.mem_filter.mp hfb with ⟨hglob, _⟩
      exact (List.mem_filter.mp hglob).1
    have hdisj : ((sortedBackups files).take N).Disjoint
        ((sortedBackups files).drop N) := by
      have h2 := hsnodup
      rw [← List.take_append_drop N (sortedBackups files)] at h2
      exact (List.nodup_append.mp h2).2.2
    have hmemiff : f ∈ (cleanup_backups_agent files N).1 ↔
        f ∈ (sortedBackups files).take N := by
      constructor
      · intro h
        rcases List.mem_filter.mp h with ⟨_, hcond⟩
        simp only [Bool.not_eq_true', decide_eq_false_iff_not] at hcond
        have hsplit : f ∈ (sortedBackups files).take N ++ (sortedBackups files).drop N := by
          rw [List.take_append_drop]; exact hfs
        rcases List.mem_append.mp hsplit with h1 | h2
        · exact h1
        · exact absurd h2 hcond
      · intro htake
        apply List.mem_filter.mpr
        refine ⟨hfmem, ?_⟩
        simp only [Bool.not_eq_true', decide_eq_false_iff_not]
        exact fun hdrop => hdisj htake hdrop
    rw [hmemiff, hiff, hperm.countP_eq]

/-- C6 (witness): ten backups (timestamps 2026-01-01 … 2026-01-10) plus a
non-backup baseline, `keep_recent = 5`: the baseline survives, each backup
survives exactly when fewer than five backups are more recent — and
concretely the remaining directory is the baseline plus backups 6-10,
with five backups cleaned and five kept. -/
theorem claim_C6_witness :
    ((∀ f ∈ sampleBackupSet, isBackupVersionFile f = false →
        f ∈ (cleanup_backups_agent sampleBackupSet 5).1) ∧
     (∀ f ∈ backupFiles sampleBackupSet,
        (f ∈ (cleanup_backups_agent sampleBackupSet 5).1 ↔
          (backupFiles sampleBackupSet).countP
            (fun g => !(strLe (backupTimestampKey g) (backupTimestampKey f))) < 5))) ∧
    (cleanup_backups_agent sampleBackupSet 5).1
      = [ sampleVersionFile 0 "2026-01-01" "base prompt" 50,
          sampleBackupFile 6 "2026-01-06" "2026-01-06T10:00:00",
          sampleBackupFile 7 "2026-01-07" "2026-01-07T10:00:00",
          sampleBackupFile 8 "2026-01-08" "2026-01-08T10:00:00",
          sampleBackupFile 9 "2026-01-09" "2026-01-09T10:00:00",
          sampleBackupFile 10 "2026-01-10" "2026-01-10T10:00:00" ] ∧
    (cleanup_backups_agent sampleBackupSet 5).2.1 = 5 ∧
    (cleanup_backups_agent sampleBackupSet 5).2.2 = 5 :=
  ⟨claim_C6 sampleBackupSet 5 (by decide) (by decide), by decide⟩

set_option maxRecDepth 100000 in
/-- C7 (code_bug): the claim — "during retention cleanup every candidate
file older than max_age_days is deleted unless that specific candidate is
referenced by an apply-history entry more recent than max_age_days;
candidates not so referenced are removed" — matches
`_is_candidate_referenced`'s documented purpose, but the code breaks it in
both directions. (1) Against the repository's own history format (a
top-level JSON array, as `save_gepa_history_entry` writes), the call
`history_data.get('entries', [])` raises AttributeError, caught into
`False`: an old candidate whose id appears in a recent entry is deleted
anyway. (2) Against an object-shaped history, the id is read from the key
`'id'` while stored candidates carry `'candidate_id'`, so the searched-for
id is the empty string, which occurs in every entry: an old candidate
referenced by no entry is kept as soon as any recent entry exists. -/
theorem claim_C7_code_bug :
    -- the repository's history format is a JSON array, and the entry is
    -- recent and mentions the candidate's id …
    historyFileOf [sampleEntryWithId] = JVal.arr [sampleEntryWithId] ∧
    parseIso? "2026-01-10T00:00:00" = some (encodeDT 2026 1 10 0 0 0) ∧
    (encodeDT 2026 1 10 0 0 0 > encodeDT 2026 1 1 0 0 0) = true ∧
    strContains sampleEntryWithId.pystr "abc123abc123abc1" = true ∧
    sampleOldCandidate.mtime < encodeDT 2026 1 1 0 0 0 ∧
    -- … yet the reference check fails and the candidate is deleted
    is_candidate_referenced
        (JVal.obj
          [("agent_type", .jstr "quick-letter"),
           ("original_prompt", .jstr "ORIG"),
           ("optimized_prompt", .jstr "OPT"),
           ("candidate_id", .jstr "abc123abc123abc1"),
           ("created_at", .jstr "2025-12-01T00:00:00"),
           ("expires_at", .jnum 100)])
        (some (historyFileOf [sampleEntryWithId])) (encodeDT 2026 1 1 0 0 0) = false ∧
    cleanup_candidates [sampleOldCandidate] (encodeDT 2026 1 1 0 0 0)
        (some (historyFileOf [sampleEntryWithId])) = ([], 1, 0) ∧
    -- conversely, under an object-shaped history whose only recent entry
    -- does not mention the candidate at all …
    strContains sampleEntryOther.pystr "abc123abc123abc1" = false ∧
    -- … the unreferenced old candidate is reported referenced and kept
    is_candidate_referenced
        (JVal.obj
          [("agent_type", .jstr "quick-letter"),
           ("original_prompt", .jstr "ORIG"),
           ("optimized_prompt", .jstr "OPT"),
           ("candidate_id", .jstr "abc123abc123abc1"),
           ("created_at", .jstr "2025-12-01T00:00:00"),
           ("expires_at", .jnum 100)])
        (some (JVal.obj [("entries", JVal.arr [sampleEntryOther])]))
        (encodeDT 2026 1 1 0 0 0) = true ∧
    cleanup_candidates [sampleOldCandidate] (encodeDT 2026 1 1 0 0 0)
        (some (JVal.obj [("entries", JVal.arr [sampleEntryOther])]))
      = ([sampleOldCandidate], 0, 1) := by
  decide

/-- C10 (witness): the checkpoint behaviour at a concrete input — a
missing record file and a pending status-update action. -/
theorem claim_C10_witness :
    is_job_cancelled JobFile.missing = true ∧
    runSteps "t1"
        (WAction.check :: [WAction.update "RUNNING" 20 "ASR corrections processed" ""])
        (JobFile.missing, false)
      = (JobFile.missing, true) ∧
    is_job_cancelled (JobFile.ok (mkQueuedJob "overnight-job-1" "t0" []))
      = ((mkQueuedJob "overnight-job-1" "t0" []).status == "ERROR" &&
          strContains (strLower ((mkQueuedJob "overnight-job-1" "t0" []).summary.getD ""))
            "cancel") :=
  claim_C10 "t1" JobFile.missing
    [WAction.update "RUNNING" 20 "ASR corrections processed" ""]
    (mkQueuedJob "overnight-job-1" "t0" []) (Or.inl rfl)

end Operator
